import Mathlib

/-!
Verification of the StudyBuddy conversational messaging pipeline.

Shallow embedding of the core components, translated from the source:
- the prefix router and the completion gateway
  (src/server/services/openai.ts, class OpenAIService);
- the conversation store interface (src/server/storage.ts, DatabaseStorage);
- the message submission pipeline
  (POST /api/conversations/:id/messages handler, src/replit.md);
- the realtime hub (src/unnamed/part_003, WebSocketService).

JavaScript strings are modelled as Lean strings; the JS string operations
used by the source (toLowerCase, startsWith, substring, trim) are modelled
character-wise.  Asynchronous provider calls are modelled as oracles passed
in as arguments; a throwing call is an explicit failure outcome.
-/

namespace StudyBuddy

/-- Message role, the role field of ChatMessage in openai.ts. -/
inductive Role where
  | user
  | assistant
  | system
deriving DecidableEq, Repr

/-- ChatMessage from openai.ts: role plus content. -/
structure ChatMessage where
  role : Role
  content : String
deriving DecidableEq, Repr

/-- One entry of the ModelRoutingConfig in openai.ts: target model and
optional system prompt. -/
structure RouteConfig where
  model : String
  systemPrompt : Option String
deriving DecidableEq, Repr

/-- The modelRouting table of openai.ts, as a list of pairs in the object
literal insertion order, which is the order Object.entries iterates. -/
def modelRouting : List (String × RouteConfig) :=
  [ ("code:",
      ⟨"gpt-4o",
       some "You are an expert software developer and architect. Provide detailed, accurate code examples and explanations. Focus on best practices, security, and maintainability."⟩),
    ("research:",
      ⟨"gpt-4o",
       some "You are a research assistant. Provide well-researched, accurate information with proper context and citations when possible. Be thorough and analytical."⟩),
    ("creative:",
      ⟨"gpt-4o",
       some "You are a creative writing assistant. Help with storytelling, creative projects, brainstorming, and artistic endeavors. Be imaginative and inspiring."⟩),
    ("analysis:",
      ⟨"gpt-4o",
       some "You are a data analyst and strategic thinker. Provide detailed analysis, break down complex problems, and offer insights based on available information."⟩) ]

/-- Result record of OpenAIService.getModelAndPrompt. -/
structure RouteResult where
  model : String
  systemPrompt : Option String
  cleanedMessage : String
deriving DecidableEq, Repr

/-- Model of JS String.prototype.toLowerCase, character-wise. -/
def jsToLower (s : String) : String :=
  ⟨s.data.map Char.toLower⟩

/-- Model of JS String.prototype.startsWith. -/
def jsStartsWith (s p : String) : Bool :=
  p.data.isPrefixOf s.data

/-- Model of JS String.prototype.substring from an index to the end. -/
def jsSubstringFrom (s : String) (n : Nat) : String :=
  ⟨s.data.drop n⟩

/-- OpenAIService.getModelAndPrompt from openai.ts: lower-case the message,
scan the routing table in order, return the first matching rule with the
prefix stripped from the original message and trimmed; otherwise the
default model gpt-4o with the message unchanged. -/
def getModelAndPrompt (message : String) : RouteResult :=
  let lowercaseMessage := jsToLower message
  match modelRouting.find? (fun pc => jsStartsWith lowercaseMessage pc.1) with
  | some (p, config) =>
      ⟨config.model, config.systemPrompt, (jsSubstringFrom message p.length).trim⟩
  | none => ⟨"gpt-4o", none, message⟩

/-! ## Completion gateway (OpenAIService.generateResponse / generateTitle) -/

/-- Outcome of one call to openai.chat.completions.create: either the call
throws (timeout, network failure, provider error), or it returns a response
whose choices each carry an optional message content (the API type is
string or null) together with an optional usage.total_tokens. -/
inductive ProviderOutcome where
  | failure
  | response (choices : List (Option String)) (usage : Option Nat)

/-- The single error kind the gateway surfaces: generateResponse catches
every thrown error and rethrows a generic failure. -/
inductive GenError where
  | generationFailed
deriving DecidableEq, Repr

/-- Success value of OpenAIService.generateResponse. -/
structure GenResult where
  content : String
  model : String
  tokenCount : Option Nat
deriving DecidableEq, Repr

/-- The optional leading system message generateResponse pushes. -/
def sysList (o : Option String) : List ChatMessage :=
  match o with
  | some sp => [⟨Role.system, sp⟩]
  | none => []

/-- Model of JS Array.prototype.slice with a negative index: the last
n elements, in order. -/
def sliceLast (n : Nat) (l : List ChatMessage) : List ChatMessage :=
  l.drop (l.length - n)

/-- The messages array generateResponse assembles before calling the
provider: optional system prompt, then conversationHistory.slice(-10),
then the current user turn with the routed cleanedMessage. -/
def buildRequestMessages (userMessage : String) (history : List ChatMessage) :
    List ChatMessage :=
  let r := getModelAndPrompt userMessage
  sysList r.systemPrompt ++ sliceLast 10 history ++ [⟨Role.user, r.cleanedMessage⟩]

/-- OpenAIService.generateResponse: route the raw message, assemble the
request, call the provider.  A thrown call and a response with no choices
(reading choices[0].message throws a TypeError, caught by the same catch)
both surface as the generic failure; otherwise content is
choices[0].message.content with null replaced by the empty string. -/
def generateResponse (userMessage : String) (conversationHistory : List ChatMessage)
    (provider : List ChatMessage → ProviderOutcome) :
    Except GenError GenResult :=
  let r := getModelAndPrompt userMessage
  match provider (buildRequestMessages userMessage conversationHistory) with
  | ProviderOutcome.failure => Except.error GenError.generationFailed
  | ProviderOutcome.response [] _ => Except.error GenError.generationFailed
  | ProviderOutcome.response (c0 :: _) usage => Except.ok ⟨c0.getD "", r.model, usage⟩

/-- Outcome of the title completion call in generateTitle: a throwing call,
or a response whose first choice content is string or null.  A response
with no choices throws when choices[0].message is read and is caught by the
same catch as a failed call, so it is identified with failure here. -/
inductive TitleOutcome where
  | failure
  | response (content : Option String)
deriving DecidableEq, Repr

/-- OpenAIService.generateTitle: take the first user message of the given
pair; if it is absent or empty return the fallback title; otherwise call
the provider, returning the trimmed content, with the fallback on a thrown
call, a null content, or a content that trims to the empty string.  The
function never propagates an error. -/
def generateTitle (messages : List ChatMessage) (provider : TitleOutcome) : String :=
  let firstUserMessage :=
    ((messages.find? (fun m => m.role == Role.user)).map ChatMessage.content).getD ""
  if firstUserMessage = "" then "New Conversation"
  else
    match provider with
    | TitleOutcome.failure => "New Conversation"
    | TitleOutcome.response none => "New Conversation"
    | TitleOutcome.response (some s) =>
        if s.trim = "" then "New Conversation" else s.trim

/-! ## Conversation store (storage.ts, DatabaseStorage) -/

/-- A conversation row: identifier, owning user, title.  Timestamps and the
selected default model are not read by the pipeline and are omitted. -/
structure Conversation where
  id : String
  userId : String
  title : String
deriving DecidableEq, Repr

/-- A message row.  Creation order is modelled by the append order in the
store together with the strictly increasing numeric identifier. -/
structure StoredMessage where
  id : Nat
  conversationId : String
  role : Role
  content : String
  model : Option String
  tokenCount : Option Nat
deriving DecidableEq, Repr

/-- The relational store: conversation rows, message rows in creation
order, and the next fresh message identifier. -/
structure Store where
  conversations : List Conversation
  messages : List StoredMessage
  nextId : Nat
deriving DecidableEq, Repr

/-- DatabaseStorage.getConversation: the row whose id and userId both
match, if any.  A conversation owned by another user is indistinguishable
from a missing one. -/
def getConversation (s : Store) (cid uid : String) : Option Conversation :=
  s.conversations.find? (fun cv => cv.id == cid && cv.userId == uid)

/-- The message rows of one conversation in creation order, as returned by
DatabaseStorage.getConversationMessages after its ownership check. -/
def messagesOf (s : Store) (cid : String) : List StoredMessage :=
  s.messages.filter (fun m => m.conversationId == cid)

/-- DatabaseStorage.addMessage: insert a row with a fresh identifier and
the current timestamp, returning the inserted row. -/
def addMessage (s : Store) (cid : String) (r : Role) (content : String)
    (model : Option String) (tok : Option Nat) : StoredMessage × Store :=
  let m : StoredMessage := ⟨s.nextId, cid, r, content, model, tok⟩
  (m, { s with messages := s.messages ++ [m], nextId := s.nextId + 1 })

/-- DatabaseStorage.updateConversation restricted to the title field, the
only update the pipeline performs: set the title of every row whose id and
userId both match. -/
def updateConversation (s : Store) (cid uid title : String) : Store :=
  { s with
    conversations := s.conversations.map (fun cv =>
      if cv.id == cid && cv.userId == uid then { cv with title := title } else cv) }

/-- The projection the pipeline applies to stored rows before handing them
to the gateway as history. -/
def chatOf (m : StoredMessage) : ChatMessage :=
  ⟨m.role, m.content⟩

/-- Store well-formedness: every stored message identifier is below the
next fresh identifier.  Every store built by the operations above from the
empty store satisfies this. -/
def StoreWF (s : Store) : Prop :=
  ∀ m ∈ s.messages, m.id < s.nextId

/-- Well-formedness is checkable on concrete stores. -/
instance (s : Store) : Decidable (StoreWF s) := by
  unfold StoreWF; infer_instance

/-! ## Message submission pipeline (POST /api/conversations/:id/messages) -/

/-- The failure taxonomy of one submission: the 404 branch (conversation
missing or owned by another user), the 400 branch (absent, non-string or
empty content), and the 500 branch reached when generation throws. -/
inductive PipelineError where
  | notFound
  | validationFailed
  | generationFailed
deriving DecidableEq, Repr

/-- The success payload res.json sends: the persisted user message and the
persisted assistant message. -/
structure SubmitOk where
  userMessage : StoredMessage
  aiMessage : StoredMessage
deriving DecidableEq, Repr

/-- The POST /api/conversations/:id/messages handler.  Content arrives as
an optional string: a request body whose content field is missing or not a
string is modelled as none, and the falsiness test of the handler rejects
none and the empty string.  The provider and title provider oracles stand
for the two completion calls.  The WebSocket notification step has no
effect on the store or the response and is modelled separately by
notifyNewMessage on the hub. -/
def postMessage (s : Store) (uid cid : String) (content : Option String)
    (provider : List ChatMessage → ProviderOutcome) (tp : TitleOutcome) :
    Store × Except PipelineError SubmitOk :=
  match getConversation s cid uid with
  | none => (s, Except.error PipelineError.notFound)
  | some _ =>
    match content with
    | none => (s, Except.error PipelineError.validationFailed)
    | some c =>
      if c = "" then (s, Except.error PipelineError.validationFailed)
      else
        let (userMessage, s1) := addMessage s cid Role.user c none none
        let messages := messagesOf s1 cid
        let conversationHistory :=
          (messages.filter (fun m => m.id != userMessage.id)).map chatOf
        match generateResponse c conversationHistory provider with
        | Except.error _ => (s1, Except.error PipelineError.generationFailed)
        | Except.ok ai =>
          let (aiMessage, s2) :=
            addMessage s1 cid Role.assistant ai.content (some ai.model) ai.tokenCount
          let s3 :=
            if messages.length = 1 then
              updateConversation s2 cid uid
                (generateTitle [⟨Role.user, c⟩, ⟨Role.assistant, ai.content⟩] tp)
            else s2
          (s3, Except.ok ⟨userMessage, aiMessage⟩)

/-! ## Realtime hub (WebSocketService, src/unnamed/part_003) -/

/-- A registry entry: the client identifier (Map key), whether the
underlying socket is in the OPEN ready state, and the userId and
conversationId fields set by the first well-formed typing frame. -/
structure WsClient where
  id : String
  wsOpen : Bool
  userId : String
  conversationId : Option String
deriving DecidableEq, Repr

/-- A WebSocketMessage frame: type discriminator plus the optional
conversationId, userId and opaque data fields. -/
structure Frame where
  ftype : String
  conversationId : Option String
  userId : Option String
  payload : Option String
deriving DecidableEq, Repr

/-- The hub registry, in Map insertion order. -/
structure Hub where
  clients : List WsClient
deriving DecidableEq, Repr

/-- WebSocketService.sendToClient: send iff the client is registered and
its socket is open; otherwise a silent no-op. -/
def sendToClient (h : Hub) (clientId : String) (msg : Frame) :
    List (String × Frame) :=
  match h.clients.find? (fun c => c.id == clientId) with
  | some c => if c.wsOpen then [(clientId, msg)] else []
  | none => []

/-- WebSocketService.broadcastToConversation: send the frame to every
registered entry whose conversationId matches, whose identifier differs
from the optional excluded one, and whose socket is open. -/
def broadcastToConversation (h : Hub) (cid : String) (msg : Frame)
    (excludeClientId : Option String) : List (String × Frame) :=
  (h.clients.filter (fun c =>
      c.conversationId == some cid &&
      (match excludeClientId with
       | some e => c.id != e
       | none => true) &&
      c.wsOpen)).map (fun c => (c.id, msg))

/-- WebSocketService.notifyNewMessage: a message-type broadcast with no
exclusion. -/
def notifyNewMessage (h : Hub) (cid : String) (payload : Option String) :
    List (String × Frame) :=
  broadcastToConversation h cid ⟨"message", some cid, none, payload⟩ none

/-- WebSocketService.handleMessage: unknown senders are dropped; a typing
frame whose userId and conversationId are both present and truthy updates
the sender entry and rebroadcasts to the conversation excluding the
sender; every other frame only hits the default branch of the switch and
produces no output. -/
def handleMessage (h : Hub) (clientId : String) (message : Frame) :
    Hub × List (String × Frame) :=
  match h.clients.find? (fun c => c.id == clientId) with
  | none => (h, [])
  | some _ =>
    if message.ftype = "typing" then
      match message.userId, message.conversationId with
      | some u, some cv =>
        if u ≠ "" ∧ cv ≠ "" then
          let h' : Hub := ⟨h.clients.map (fun c =>
            if c.id = clientId then { c with userId := u, conversationId := some cv }
            else c)⟩
          (h', broadcastToConversation h' cv ⟨"typing", none, some u, message.payload⟩
                (some clientId))
        else (h, [])
      | _, _ => (h, [])
    else (h, [])

/-- A raw inbound socket payload: either JSON.parse throws on it, or it
parses to a frame value. -/
inductive RawFrame where
  | invalid
  | valid (f : Frame)

/-- The error frame the connection handler sends when JSON.parse throws. -/
def errorFrame : Frame :=
  ⟨"error", none, none, some "Invalid message format"⟩

/-- The effects of handling one raw inbound payload: the updated registry,
the frames sent, and whether the connection was closed. -/
structure WsEffects where
  hub : Hub
  sends : List (String × Frame)
  closed : Bool
deriving DecidableEq, Repr

/-- The message listener installed by handleConnection: a JSON parse error
answers with the error frame through sendToClient and keeps the connection
open; a parsed frame goes to handleMessage.  No branch closes the
connection. -/
def handleRawFrame (h : Hub) (clientId : String) (raw : RawFrame) : WsEffects :=
  match raw with
  | RawFrame.invalid => ⟨h, sendToClient h clientId errorFrame, false⟩
  | RawFrame.valid f =>
      let (h', sends) := handleMessage h clientId f
      ⟨h', sends, false⟩

/-- The well-formed typing shape of section 4.5 of the specification: the
only recognized inbound frame kind, with both a truthy userId and a truthy
conversationId. -/
def wellFormedTyping (f : Frame) : Bool :=
  f.ftype == "typing" &&
    (match f.userId, f.conversationId with
     | some u, some cv => u != "" && cv != ""
     | _, _ => false)

/-! ## Interleaving model of concurrent submissions

The handler body awaits at every store access and at the provider call, so
two concurrent submissions to the same conversation interleave at those
suspension points while sharing the store.  One submission is a sequence of
atomic segments between awaits; a schedule picks which submission runs its
next segment. -/

/-- The parameters of one inbound submission. -/
structure RunParams where
  uid : String
  cid : String
  content : Option String
deriving DecidableEq, Repr

/-- The progress of one handler run, named after the last completed await:
conversation fetched and content validated, user message inserted, history
read, completion received, finished. -/
inductive RunPhase where
  | start
  | gotConv
  | userAdded
  | historyRead
  | generated
  | finished
deriving DecidableEq, Repr

/-- Decidable equality for Except values, needed to evaluate concrete
outcomes of the interleaving model. -/
instance {ε α : Type} [DecidableEq ε] [DecidableEq α] : DecidableEq (Except ε α) :=
  fun x y =>
    match x, y with
    | Except.error e1, Except.error e2 =>
        if h : e1 = e2 then isTrue (by rw [h])
        else isFalse (by intro hc; cases hc; exact h rfl)
    | Except.error _, Except.ok _ => isFalse (by intro hc; cases hc)
    | Except.ok _, Except.error _ => isFalse (by intro hc; cases hc)
    | Except.ok a1, Except.ok a2 =>
        if h : a1 = a2 then isTrue (by rw [h])
        else isFalse (by intro hc; cases hc; exact h rfl)

/-- The local variables of one handler run. -/
structure RunLocal where
  phase : RunPhase
  userMsg : Option StoredMessage
  readCount : Nat
  history : List ChatMessage
  genResult : Option GenResult
  result : Option (Except PipelineError SubmitOk)
deriving DecidableEq, Repr

/-- The initial local state of a run. -/
def initLocal : RunLocal :=
  ⟨RunPhase.start, none, 0, [], none, none⟩

/-- One atomic segment of the handler, between two awaits, acting on the
shared store.  The segments mirror the handler body in order: the
conversation lookup and content validation, the user message insert, the
history fetch and filter, the completion call, and the assistant insert
with the conditional title update.  Branches unreachable from initLocal
(a later phase with an unset earlier field) abort with no result. -/
def runStep (p : RunParams) (provider : List ChatMessage → ProviderOutcome)
    (tp : TitleOutcome) (s : Store) (l : RunLocal) : Store × RunLocal :=
  match l.phase with
  | RunPhase.start =>
    match getConversation s p.cid p.uid with
    | none => (s, { l with phase := RunPhase.finished,
                           result := some (Except.error PipelineError.notFound) })
    | some _ =>
      match p.content with
      | none => (s, { l with phase := RunPhase.finished,
                             result := some (Except.error PipelineError.validationFailed) })
      | some c =>
        if c = "" then
          (s, { l with phase := RunPhase.finished,
                       result := some (Except.error PipelineError.validationFailed) })
        else (s, { l with phase := RunPhase.gotConv })
  | RunPhase.gotConv =>
    match p.content with
    | some c =>
      let (um, s1) := addMessage s p.cid Role.user c none none
      (s1, { l with phase := RunPhase.userAdded, userMsg := some um })
    | none => (s, { l with phase := RunPhase.finished, result := none })
  | RunPhase.userAdded =>
    match l.userMsg with
    | some um =>
      let msgs := messagesOf s p.cid
      let hist := (msgs.filter (fun m => m.id != um.id)).map chatOf
      (s, { l with phase := RunPhase.historyRead,
                   readCount := msgs.length, history := hist })
    | none => (s, { l with phase := RunPhase.finished, result := none })
  | RunPhase.historyRead =>
    match p.content with
    | some c =>
      match generateResponse c l.history provider with
      | Except.error _ =>
          (s, { l with phase := RunPhase.finished,
                       result := some (Except.error PipelineError.generationFailed) })
      | Except.ok ai =>
          (s, { l with phase := RunPhase.generated, genResult := some ai })
    | none => (s, { l with phase := RunPhase.finished, result := none })
  | RunPhase.generated =>
    match p.content, l.userMsg, l.genResult with
    | some c, some um, some ai =>
      let (am, s2) := addMessage s p.cid Role.assistant ai.content (some ai.model) ai.tokenCount
      let s3 :=
        if l.readCount = 1 then
          updateConversation s2 p.cid p.uid
            (generateTitle [⟨Role.user, c⟩, ⟨Role.assistant, ai.content⟩] tp)
        else s2
      (s3, { l with phase := RunPhase.finished,
                    result := some (Except.ok ⟨um, am⟩) })
    | _, _, _ => (s, { l with phase := RunPhase.finished, result := none })
  | RunPhase.finished => (s, l)

/-- Run two submissions a and b against the shared store under a schedule:
true steps a, false steps b.  Each run executes its segments in program
order; a finished run ignores further steps. -/
def execSched (pA pB : RunParams) (provider : List ChatMessage → ProviderOutcome)
    (tp : TitleOutcome) :
    List Bool → Store → RunLocal → RunLocal → Store × RunLocal × RunLocal
  | [], s, a, b => (s, a, b)
  | true :: rest, s, a, b =>
      let (s', a') := runStep pA provider tp s a
      execSched pA pB provider tp rest s' a' b
  | false :: rest, s, a, b =>
      let (s', b') := runStep pB provider tp s b
      execSched pA pB provider tp rest s' a b'

/-! ## Auxiliary definitions used by the verification -/

/-- The user message row postMessage inserts for content c on store s. -/
def userMsgOf (s : Store) (cid c : String) : StoredMessage :=
  ⟨s.nextId, cid, Role.user, c, none, none⟩

/-- The store right after postMessage has persisted the user message. -/
def afterUser (s : Store) (cid c : String) : Store :=
  { s with messages := s.messages ++ [userMsgOf s cid c], nextId := s.nextId + 1 }

/-- The tail of the pipeline after the user message is persisted and the
history is read, as a function of the gateway outcome: on failure the
store keeps only the user message and the 500 branch is taken; on success
the assistant message is appended and the title is updated exactly when
the fetched log length was one. -/
def runTail (s : Store) (cid uid c : String) (tp : TitleOutcome) :
    Except GenError GenResult → Store × Except PipelineError SubmitOk
  | Except.error _ => (afterUser s cid c, Except.error PipelineError.generationFailed)
  | Except.ok ai =>
    let s1 := afterUser s cid c
    let (am, s2) := addMessage s1 cid Role.assistant ai.content (some ai.model) ai.tokenCount
    let s3 :=
      if (messagesOf s cid).length + 1 = 1 then
        updateConversation s2 cid uid
          (generateTitle [⟨Role.user, c⟩, ⟨Role.assistant, ai.content⟩] tp)
      else s2
    (s3, Except.ok ⟨userMsgOf s cid c, am⟩)

/-- A demonstration conversation. -/
def convDemo : Conversation := ⟨"c1", "u1", "New Chat"⟩

/-- A demonstration store holding one conversation and no messages. -/
def storeDemo : Store := ⟨[convDemo], [], 0⟩

/-- A provider that always answers with one non-empty completion. -/
def providerDemo : List ChatMessage → ProviderOutcome :=
  fun _ => ProviderOutcome.response [some "reply"] none

/-- A provider whose call always throws. -/
def failProviderDemo : List ChatMessage → ProviderOutcome :=
  fun _ => ProviderOutcome.failure

/-- A provider that always answers with one empty completion. -/
def emptyCompletionProvider : List ChatMessage → ProviderOutcome :=
  fun _ => ProviderOutcome.response [some ""] none

/-- Demonstration realtime clients, both open and watching conversation C. -/
def clientA : WsClient := ⟨"A", true, "", some "C"⟩

/-- Second demonstration client. -/
def clientB : WsClient := ⟨"B", true, "", some "C"⟩

/-- A demonstration hub registry with the two clients above. -/
def hubDemo : Hub := ⟨[clientA, clientB]⟩

/-- First concurrent submission of the race demonstration. -/
def raceA : RunParams := ⟨"u1", "c1", some "first"⟩

/-- Second concurrent submission of the race demonstration. -/
def raceB : RunParams := ⟨"u1", "c1", some "second"⟩

/-- The interleaving in which both submissions read their history before
either assistant insert: A runs lookup, user insert and history read, then
B runs its own, then each receives its completion and appends. -/
def raceSchedule : List Bool :=
  [true, true, true, false, false, false, true, true, false, false]

/-- The provider used by the race demonstration, always answering with one
non-empty completion. -/
def raceProvider : List ChatMessage → ProviderOutcome :=
  fun _ => ProviderOutcome.response [some "reply"] none

/-! ## Router lemmas and claims about getModelAndPrompt -/

/-- Two prefixes of the same list are comparable. -/
theorem isPrefixOf_trans_or (a b s : List Char) (ha : a.isPrefixOf s = true)
    (hb : b.isPrefixOf s = true) : a.isPrefixOf b = true ∨ b.isPrefixOf a = true := by
  induction s generalizing a b with
  | nil =>
    cases a with
    | nil => left; cases b <;> simp [List.isPrefixOf]
    | cons a0 as => simp [List.isPrefixOf] at ha
  | cons x xs ih =>
    cases a with
    | nil => left; cases b <;> simp [List.isPrefixOf]
    | cons a0 as =>
      cases b with
      | nil => right; rfl
      | cons b0 bs =>
        simp only [List.isPrefixOf, Bool.and_eq_true, beq_iff_eq] at ha hb ⊢
        obtain ⟨hax, has⟩ := ha
        obtain ⟨hbx, hbs⟩ := hb
        subst hax; subst hbx
        rcases ih as bs has hbs with h | h
        · exact Or.inl ⟨rfl, h⟩
        · exact Or.inr ⟨rfl, h⟩

/-- A message that starts with one of two incomparable prefixes does not
start with the other. -/
theorem jsStartsWith_excl (lm p q : String) (h : jsStartsWith lm p = true)
    (h1 : p.data.isPrefixOf q.data = false) (h2 : q.data.isPrefixOf p.data = false) :
    jsStartsWith lm q = false := by
  cases hq : jsStartsWith lm q with
  | false => rfl
  | true =>
    simp only [jsStartsWith] at h hq
    rcases isPrefixOf_trans_or p.data q.data lm.data h hq with h' | h'
    · rw [h1] at h'; exact absurd h' Bool.false_ne_true
    · rw [h2] at h'; exact absurd h' Bool.false_ne_true

/-- Claim C3: if the message case-insensitively starts with a configured
prefix, getModelAndPrompt returns that rule's model and system prompt with
the first len(prefix) characters stripped and the remainder trimmed; if no
configured prefix matches, it returns the default model gpt-4o, no system
prompt, and the message unchanged; in particular the empty message falls
through to the default.  The function is a total Lean function, hence pure
and total with no failure cases. -/
theorem router_rule_match (m : String) :
    (∀ p cfg, (p, cfg) ∈ modelRouting → jsStartsWith (jsToLower m) p = true →
        getModelAndPrompt m
          = ⟨cfg.model, cfg.systemPrompt, (jsSubstringFrom m p.length).trim⟩) ∧
    ((∀ pc ∈ modelRouting, jsStartsWith (jsToLower m) pc.1 = false) →
        getModelAndPrompt m = ⟨"gpt-4o", none, m⟩) ∧
    getModelAndPrompt "" = ⟨"gpt-4o", none, ""⟩ := by
  refine ⟨?_, ?_, by decide⟩
  · intro p cfg hmem h
    simp only [modelRouting, List.mem_cons, List.not_mem_nil, or_false,
      Prod.mk.injEq] at hmem
    rcases hmem with ⟨hp, hcfg⟩ | ⟨hp, hcfg⟩ | ⟨hp, hcfg⟩ | ⟨hp, hcfg⟩ <;>
      subst hp <;> subst hcfg
    · simp [getModelAndPrompt, modelRouting, List.find?, h]
    · have hc : jsStartsWith (jsToLower m) "code:" = false :=
        jsStartsWith_excl _ "research:" _ h (by decide) (by decide)
      simp [getModelAndPrompt, modelRouting, List.find?, h, hc]
    · have hc : jsStartsWith (jsToLower m) "code:" = false :=
        jsStartsWith_excl _ "creative:" _ h (by decide) (by decide)
      have hr : jsStartsWith (jsToLower m) "research:" = false :=
        jsStartsWith_excl _ "creative:" _ h (by decide) (by decide)
      simp [getModelAndPrompt, modelRouting, List.find?, h, hc, hr]
    · have hc : jsStartsWith (jsToLower m) "code:" = false :=
        jsStartsWith_excl _ "analysis:" _ h (by decide) (by decide)
      have hr : jsStartsWith (jsToLower m) "research:" = false :=
        jsStartsWith_excl _ "analysis:" _ h (by decide) (by decide)
      have hcr : jsStartsWith (jsToLower m) "creative:" = false :=
        jsStartsWith_excl _ "analysis:" _ h (by decide) (by decide)
      simp [getModelAndPrompt, modelRouting, List.find?, h, hc, hr, hcr]
  · intro hall
    unfold getModelAndPrompt
    cases hf : modelRouting.find? (fun pc => jsStartsWith (jsToLower m) pc.1) with
    | none => simp [hf]
    | some pc =>
      exfalso
      have hmem := List.mem_of_find?_eq_some hf
      have hp := List.find?_some hf
      have hfalse := hall pc hmem
      simp only [hfalse] at hp
      exact Bool.false_ne_true hp

set_option maxRecDepth 4000 in
/-- Witness for claim C3 at a concrete routed input. -/
theorem router_rule_match_witness :
    jsStartsWith (jsToLower "code: write hello") "code:" = true ∧
    getModelAndPrompt "code: write hello"
      = ⟨"gpt-4o",
         some "You are an expert software developer and architect. Provide detailed, accurate code examples and explanations. Focus on best practices, security, and maintainability.",
         (jsSubstringFrom "code: write hello" "code:".length).trim⟩ :=
  ⟨by decide,
   (router_rule_match "code: write hello").1 "code:"
     ⟨"gpt-4o",
      some "You are an expert software developer and architect. Provide detailed, accurate code examples and explanations. Focus on best practices, security, and maintainability."⟩
     (by decide) (by decide)⟩

/-- Claim C10: every routed message gets model gpt-4o: each configured
rule and the no-match default name the same model, so routing only ever
changes the system prompt and the cleaned message. -/
theorem router_model_constant :
    (∀ m, (getModelAndPrompt m).model = "gpt-4o") ∧
    modelRouting.all (fun pc => pc.2.model == "gpt-4o") = true := by
  refine ⟨?_, by decide⟩
  intro m
  unfold getModelAndPrompt
  cases hf : modelRouting.find? (fun pc => jsStartsWith (jsToLower m) pc.1) with
  | none => simp [hf]
  | some pc =>
    have hmem := List.mem_of_find?_eq_some hf
    obtain ⟨p, cfg⟩ := pc
    simp only [hf]
    simp only [modelRouting, List.mem_cons, List.not_mem_nil, or_false,
      Prod.mk.injEq] at hmem
    rcases hmem with ⟨hp, hcfg⟩ | ⟨hp, hcfg⟩ | ⟨hp, hcfg⟩ | ⟨hp, hcfg⟩ <;>
      subst hcfg <;> rfl

/-! ## Store and pipeline lemmas -/

/-- A message of one conversation is a message of the store. -/
theorem mem_messagesOf {s : Store} {cid : String} {m : StoredMessage}
    (h : m ∈ messagesOf s cid) : m ∈ s.messages :=
  List.mem_of_mem_filter h

/-- Reading the conversation log right after the user insert appends
exactly the inserted row. -/
theorem messagesOf_afterUser (s : Store) (cid c : String) :
    messagesOf (afterUser s cid c) cid = messagesOf s cid ++ [userMsgOf s cid c] := by
  simp [messagesOf, afterUser, userMsgOf, List.filter_append]

/-- In a well-formed store the history filter removes exactly the row the
pipeline just inserted, leaving the pre-insert log in order. -/
theorem history_filter_eq (s : Store) (cid c : String) (hwf : StoreWF s) :
    (messagesOf (afterUser s cid c) cid).filter
        (fun m => m.id != (userMsgOf s cid c).id)
      = messagesOf s cid := by
  rw [messagesOf_afterUser, List.filter_append]
  have h1 : (messagesOf s cid).filter (fun m => m.id != (userMsgOf s cid c).id)
      = messagesOf s cid := by
    apply List.filter_eq_self.mpr
    intro m hm
    have hid := hwf m (mem_messagesOf hm)
    simp only [userMsgOf, bne_iff_ne, ne_eq]
    omega
  have h2 : ([userMsgOf s cid c] : List StoredMessage).filter
      (fun m => m.id != (userMsgOf s cid c).id) = [] := by
    simp
  rw [h1, h2, List.append_nil]

/-- On the validated path the handler equals the explicit tail applied to
the gateway outcome computed over the pre-insert log. -/
theorem postMessage_valid (s : Store) (uid cid c : String) (conv : Conversation)
    (provider : List ChatMessage → ProviderOutcome) (tp : TitleOutcome)
    (hwf : StoreWF s) (hconv : getConversation s cid uid = some conv) (hc : c ≠ "") :
    postMessage s uid cid (some c) provider tp
      = runTail s cid uid c tp
          (generateResponse c ((messagesOf s cid).map chatOf) provider) := by
  have hmsgs := messagesOf_afterUser s cid c
  have hfilter := history_filter_eq s cid c hwf
  simp only [afterUser, userMsgOf] at hmsgs hfilter
  simp only [postMessage, hconv, if_neg hc, addMessage]
  rw [hfilter, hmsgs]
  cases hg : generateResponse c (List.map chatOf (messagesOf s cid)) provider with
  | error e =>
    simp only [runTail, afterUser, userMsgOf]
  | ok ai =>
    simp only [runTail, afterUser, userMsgOf, addMessage, List.length_append,
      List.length_singleton]

/-- Searching an updated conversation table finds the updated row. -/
theorem find?_update (l : List Conversation) (cid uid t : String) :
    (l.map (fun cv =>
        if cv.id == cid && cv.userId == uid then { cv with title := t } else cv)).find?
        (fun cv => cv.id == cid && cv.userId == uid)
      = (l.find? (fun cv => cv.id == cid && cv.userId == uid)).map
          (fun cv => { cv with title := t }) := by
  induction l with
  | nil => rfl
  | cons cv rest ih =>
    simp only [List.map_cons]
    by_cases h : (cv.id == cid && cv.userId == uid) = true
    · rw [if_pos h]
      simp only [List.find?, h]
      rfl
    · have h' : (cv.id == cid && cv.userId == uid) = false := by
        cases hb : (cv.id == cid && cv.userId == uid)
        · rfl
        · exact absurd hb h
      rw [if_neg h]
      simp only [List.find?, h']
      exact ih

/-- getConversation after updateConversation returns the found row with
the new title. -/
theorem getConversation_update (s : Store) (cid uid t : String) :
    getConversation (updateConversation s cid uid t) cid uid
      = (getConversation s cid uid).map (fun cv => { cv with title := t }) := by
  unfold getConversation updateConversation
  exact find?_update s.conversations cid uid t

/-! ## Pipeline claims -/

/-- Claim C2: the request the pipeline hands to the completion provider is
determined by the pre-insert conversation log: it is the optional system
prompt, then the most recent 10 entries of the existing log oldest first,
then the routed current turn; the just-inserted user message is excluded
from the history and supplied separately as the current turn.  The last
two conjuncts pin down the window: the whole log when it has at most 10
entries, otherwise a length-10 suffix. -/
theorem history_window (s : Store) (uid cid c : String) (conv : Conversation)
    (provider : List ChatMessage → ProviderOutcome) (tp : TitleOutcome)
    (hwf : StoreWF s) (hconv : getConversation s cid uid = some conv) (hc : c ≠ "") :
    postMessage s uid cid (some c) provider tp
      = postMessage s uid cid (some c)
          (fun _ => provider (buildRequestMessages c ((messagesOf s cid).map chatOf))) tp
    ∧ buildRequestMessages c ((messagesOf s cid).map chatOf)
        = sysList (getModelAndPrompt c).systemPrompt
            ++ sliceLast 10 ((messagesOf s cid).map chatOf)
            ++ [⟨Role.user, (getModelAndPrompt c).cleanedMessage⟩]
    ∧ (∀ l : List ChatMessage, l.length ≤ 10 → sliceLast 10 l = l)
    ∧ (∀ l : List ChatMessage, 10 ≤ l.length →
          (sliceLast 10 l).length = 10 ∧ ∃ pre, pre ++ sliceLast 10 l = l) := by
  refine ⟨?_, rfl, ?_, ?_⟩
  · rw [postMessage_valid s uid cid c conv provider tp hwf hconv hc,
      postMessage_valid s uid cid c conv
        (fun _ => provider (buildRequestMessages c ((messagesOf s cid).map chatOf)))
        tp hwf hconv hc]
    rfl
  · intro l hl
    have h0 : l.length - 10 = 0 := by omega
    simp [sliceLast, h0]
  · intro l hl
    constructor
    · simp only [sliceLast, List.length_drop]
      omega
    · exact ⟨l.take (l.length - 10), List.take_append_drop _ _⟩

/-- Witness for claim C2 at a concrete store and provider. -/
theorem history_window_witness :
    StoreWF storeDemo ∧ getConversation storeDemo "c1" "u1" = some convDemo ∧
    postMessage storeDemo "u1" "c1" (some "hi") providerDemo TitleOutcome.failure
      = postMessage storeDemo "u1" "c1" (some "hi")
          (fun _ => providerDemo
            (buildRequestMessages "hi" ((messagesOf storeDemo "c1").map chatOf)))
          TitleOutcome.failure :=
  ⟨by decide, by decide,
   (history_window storeDemo "u1" "c1" "hi" convDemo providerDemo TitleOutcome.failure
     (by decide) (by decide) (by decide)).1⟩

/-- Claim C5: when the gateway raises the generation failure the pipeline
returns the error outcome and the final store is the input store with
exactly the user message appended: the user message remains persisted, no
assistant message is written, and the caller receives an error result
distinguishable from a success pair. -/
theorem generation_failure_keeps_user (s : Store) (uid cid c : String)
    (conv : Conversation) (provider : List ChatMessage → ProviderOutcome)
    (tp : TitleOutcome) (hwf : StoreWF s)
    (hconv : getConversation s cid uid = some conv) (hc : c ≠ "")
    (hfail : generateResponse c ((messagesOf s cid).map chatOf) provider
        = Except.error GenError.generationFailed) :
    postMessage s uid cid (some c) provider tp
      = (afterUser s cid c, Except.error PipelineError.generationFailed)
    ∧ (afterUser s cid c).messages = s.messages ++ [userMsgOf s cid c]
    ∧ (userMsgOf s cid c).role = Role.user := by
  refine ⟨?_, rfl, rfl⟩
  rw [postMessage_valid s uid cid c conv provider tp hwf hconv hc, hfail]
  rfl

/-- Witness for claim C5 at a concrete store and a throwing provider. -/
theorem generation_failure_keeps_user_witness :
    generateResponse "hi" ((messagesOf storeDemo "c1").map chatOf) failProviderDemo
      = Except.error GenError.generationFailed ∧
    postMessage storeDemo "u1" "c1" (some "hi") failProviderDemo TitleOutcome.failure
      = (afterUser storeDemo "c1" "hi", Except.error PipelineError.generationFailed) :=
  ⟨by decide,
   (generation_failure_keeps_user storeDemo "u1" "c1" "hi" convDemo failProviderDemo
     TitleOutcome.failure (by decide) (by decide) (by decide) (by decide)).1⟩

/-- Claim C7: a conversation that is missing for the requesting owner,
including one owned by a different user, aborts with the 404 not-found
outcome; a found conversation with absent, non-string or empty content
aborts with the 400 validation outcome; in both cases the returned store
is the input store unchanged, so nothing was persisted.  The error type
has no forbidden case, so a cross-user request cannot be told apart from a
missing conversation. -/
theorem preflight_aborts (s : Store) (uid cid : String) (content : Option String)
    (provider : List ChatMessage → ProviderOutcome) (tp : TitleOutcome) :
    (getConversation s cid uid = none →
        postMessage s uid cid content provider tp
          = (s, Except.error PipelineError.notFound))
    ∧ ((∀ cv ∈ s.conversations, cv.id = cid → cv.userId ≠ uid) →
        postMessage s uid cid content provider tp
          = (s, Except.error PipelineError.notFound))
    ∧ (∀ conv, getConversation s cid uid = some conv →
        content = none ∨ content = some "" →
        postMessage s uid cid content provider tp
          = (s, Except.error PipelineError.validationFailed)) := by
  refine ⟨?_, ?_, ?_⟩
  · intro h
    simp [postMessage, h]
  · intro h
    have hnone : getConversation s cid uid = none := by
      unfold getConversation
      apply List.find?_eq_none.mpr
      intro cv hcv
      simp only [Bool.and_eq_true, beq_iff_eq, not_and]
      intro hid
      exact fun huid => h cv hcv hid huid
    simp [postMessage, hnone]
  · intro conv hconv hcontent
    rcases hcontent with h | h <;> subst h <;> simp [postMessage, hconv]

/-- Witness for claim C7: a cross-user request leaves the store unchanged
and yields the not-found outcome. -/
theorem preflight_aborts_witness :
    (∀ cv ∈ storeDemo.conversations, cv.id = "c1" → cv.userId ≠ "u2") ∧
    postMessage storeDemo "u2" "c1" (some "hi") providerDemo TitleOutcome.failure
      = (storeDemo, Except.error PipelineError.notFound) :=
  ⟨by decide,
   (preflight_aborts storeDemo "u2" "c1" (some "hi") providerDemo
     TitleOutcome.failure).2.1 (by decide)⟩

/-- getConversation ignores the message table, so an insert leaves it
unchanged. -/
theorem getConversation_addMessage (s : Store) (cid uid cid2 : String) (r : Role)
    (content : String) (model : Option String) (tok : Option Nat) :
    getConversation ((addMessage s cid2 r content model tok).2) cid uid
      = getConversation s cid uid := rfl

/-- getConversation ignores the user message insert. -/
theorem getConversation_afterUser (s : Store) (cid uid cid2 c2 : String) :
    getConversation (afterUser s cid2 c2) cid uid = getConversation s cid uid := rfl

/-- Counterexample to claim C1 as stated: a provider response whose first
choice content is the empty string is not surfaced as a failure; the
pipeline answers with the success pair and persists an assistant message
with empty content. -/
theorem empty_completion_persisted :
    (postMessage storeDemo "u1" "c1" (some "hi") emptyCompletionProvider
        TitleOutcome.failure).2
      = Except.ok ⟨⟨0, "c1", Role.user, "hi", none, none⟩,
          ⟨1, "c1", Role.assistant, "", some "gpt-4o", none⟩⟩
    ∧ (⟨1, "c1", Role.assistant, "", some "gpt-4o", none⟩ : StoredMessage)
        ∈ (postMessage storeDemo "u1" "c1" (some "hi") emptyCompletionProvider
            TitleOutcome.failure).1.messages := by
  decide

/-- Claim C1 as amended: when the provider call fails (timeout, provider
error, or a malformed response with no choices) the pipeline surfaces the
typed generation failure and persists no assistant message: every
assistant-role row of the final store was already present before the
submission. -/
theorem provider_failure_no_assistant (s : Store) (uid cid c : String)
    (conv : Conversation) (provider : List ChatMessage → ProviderOutcome)
    (tp : TitleOutcome) (hwf : StoreWF s)
    (hconv : getConversation s cid uid = some conv) (hc : c ≠ "")
    (hfail : provider (buildRequestMessages c ((messagesOf s cid).map chatOf))
          = ProviderOutcome.failure
        ∨ ∃ u, provider (buildRequestMessages c ((messagesOf s cid).map chatOf))
          = ProviderOutcome.response [] u) :
    (postMessage s uid cid (some c) provider tp).2
        = Except.error PipelineError.generationFailed
    ∧ ∀ m ∈ (postMessage s uid cid (some c) provider tp).1.messages,
        m.role = Role.assistant → m ∈ s.messages := by
  have hg : generateResponse c ((messagesOf s cid).map chatOf) provider
      = Except.error GenError.generationFailed := by
    unfold generateResponse
    rcases hfail with h | ⟨u, h⟩ <;> rw [h]
  rw [postMessage_valid s uid cid c conv provider tp hwf hconv hc, hg]
  refine ⟨rfl, ?_⟩
  intro m hm hrole
  have hm' : m ∈ s.messages ++ [userMsgOf s cid c] := hm
  rcases List.mem_append.mp hm' with h | h
  · exact h
  · exfalso
    have hmu : m = userMsgOf s cid c := by simpa using h
    rw [hmu] at hrole
    simp [userMsgOf] at hrole

/-- Witness for the amended claim C1 at a throwing provider. -/
theorem provider_failure_no_assistant_witness :
    failProviderDemo (buildRequestMessages "hi" ((messagesOf storeDemo "c1").map chatOf))
        = ProviderOutcome.failure ∧
    (postMessage storeDemo "u1" "c1" (some "hi") failProviderDemo
        TitleOutcome.failure).2
      = Except.error PipelineError.generationFailed :=
  ⟨rfl,
   (provider_failure_no_assistant storeDemo "u1" "c1" "hi" convDemo failProviderDemo
     TitleOutcome.failure (by decide) (by decide) (by decide) (Or.inl rfl)).1⟩

/-- Claim C6: the conversation title is updated exactly when the log
fetched right after the user insert has length one, that is when the
conversation had no messages before the submission; on that first exchange
the stored title becomes the generateTitle output; otherwise the
conversation table is untouched; the terminal outcome of the pipeline does
not depend on the title provider; and generateTitle answers the fixed
fallback on a thrown call, a null content, or a content that trims to
empty, never propagating an error. -/
theorem title_on_first_exchange (s : Store) (uid cid c : String) (conv : Conversation)
    (provider : List ChatMessage → ProviderOutcome) (tp : TitleOutcome)
    (hwf : StoreWF s) (hconv : getConversation s cid uid = some conv) (hc : c ≠ "")
    (c0 : Option String) (cs : List (Option String)) (usage : Option Nat)
    (hprov : provider (buildRequestMessages c ((messagesOf s cid).map chatOf))
        = ProviderOutcome.response (c0 :: cs) usage) :
    (messagesOf s cid = [] →
        getConversation (postMessage s uid cid (some c) provider tp).1 cid uid
          = some { conv with
              title := generateTitle
                [⟨Role.user, c⟩, ⟨Role.assistant, c0.getD ""⟩] tp })
    ∧ (messagesOf s cid ≠ [] →
        (postMessage s uid cid (some c) provider tp).1.conversations
          = s.conversations)
    ∧ (∀ tp', (postMessage s uid cid (some c) provider tp').2
          = (postMessage s uid cid (some c) provider tp).2)
    ∧ (∀ msgs, generateTitle msgs TitleOutcome.failure = "New Conversation"
        ∧ generateTitle msgs (TitleOutcome.response none) = "New Conversation"
        ∧ ∀ str, str.trim = "" →
            generateTitle msgs (TitleOutcome.response (some str)) = "New Conversation") := by
  have hg : generateResponse c ((messagesOf s cid).map chatOf) provider
      = Except.ok ⟨c0.getD "", (getModelAndPrompt c).model, usage⟩ := by
    unfold generateResponse
    rw [hprov]
  refine ⟨?_, ?_, ?_, ?_⟩
  · intro hempty
    rw [postMessage_valid s uid cid c conv provider tp hwf hconv hc, hg]
    simp only [runTail, hempty, List.length_nil, Nat.zero_add, if_pos]
    rw [getConversation_update, getConversation_addMessage, getConversation_afterUser,
      hconv]
    rfl
  · intro hne
    rw [postMessage_valid s uid cid c conv provider tp hwf hconv hc, hg]
    have hlen : ¬ ((messagesOf s cid).length + 1 = 1) := by
      intro h
      exact hne (List.length_eq_zero.mp (by omega))
    simp only [runTail]
    rw [if_neg hlen]
    rfl
  · intro tp'
    rw [postMessage_valid s uid cid c conv provider tp' hwf hconv hc,
      postMessage_valid s uid cid c conv provider tp hwf hconv hc, hg]
    rfl
  · intro msgs
    refine ⟨?_, ?_, ?_⟩
    · simp only [generateTitle]
      by_cases h : (((msgs.find? (fun m => m.role == Role.user)).map
          ChatMessage.content).getD "") = ""
      · rw [if_pos h]
      · rw [if_neg h]
    · simp only [generateTitle]
      by_cases h : (((msgs.find? (fun m => m.role == Role.user)).map
          ChatMessage.content).getD "") = ""
      · rw [if_pos h]
      · rw [if_neg h]
    · intro str htrim
      simp only [generateTitle]
      by_cases h : (((msgs.find? (fun m => m.role == Role.user)).map
          ChatMessage.content).getD "") = ""
      · rw [if_pos h]
      · rw [if_neg h, if_pos htrim]

/-- Witness for claim C6 on a first exchange. -/
theorem title_on_first_exchange_witness :
    messagesOf storeDemo "c1" = [] ∧
    getConversation (postMessage storeDemo "u1" "c1" (some "hi") providerDemo
        TitleOutcome.failure).1 "c1" "u1"
      = some { convDemo with
          title := generateTitle
            [⟨Role.user, "hi"⟩, ⟨Role.assistant, (some "reply").getD ""⟩]
            TitleOutcome.failure } :=
  ⟨by decide,
   (title_on_first_exchange storeDemo "u1" "c1" "hi" convDemo providerDemo
     TitleOutcome.failure (by decide) (by decide) (by decide)
     (some "reply") [] none rfl).1 (by decide)⟩

/-! ## Realtime hub claims -/

/-- Membership in a conversation broadcast, for registries with distinct
client identifiers: a client identifier receives the frame exactly when
its entry matches the conversation, is not the excluded sender, and its
socket is open. -/
theorem mem_broadcast_iff (hub : Hub) (cid : String) (msg : Frame) (ex : Option String)
    (hnodup : (hub.clients.map (fun c => c.id)).Nodup)
    (cl : WsClient) (hcl : cl ∈ hub.clients) :
    ((cl.id, msg) ∈ broadcastToConversation hub cid msg ex
      ↔ (cl.conversationId == some cid
          && (match ex with | some e => cl.id != e | none => true)
          && cl.wsOpen) = true) := by
  unfold broadcastToConversation
  constructor
  · intro hmem
    obtain ⟨c', hc', heq⟩ := List.mem_map.mp hmem
    obtain ⟨hc'mem, hc'cond⟩ := List.mem_filter.mp hc'
    have hid : c'.id = cl.id := congrArg Prod.fst heq
    have hceq : c' = cl := List.inj_on_of_nodup_map hnodup hc'mem hcl hid
    rw [← hceq]
    exact hc'cond
  · intro hcond
    exact List.mem_map.mpr ⟨cl, List.mem_filter.mpr ⟨hcl, hcond⟩, rfl⟩

/-- A broadcast that excludes a sender never sends to that sender. -/
theorem broadcast_excludes (hub : Hub) (cid a : String) (msg : Frame) :
    ∀ fr, (a, fr) ∉ broadcastToConversation hub cid msg (some a) := by
  intro fr hmem
  unfold broadcastToConversation at hmem
  obtain ⟨c', hc', heq⟩ := List.mem_map.mp hmem
  obtain ⟨_, hc'cond⟩ := List.mem_filter.mp hc'
  have hid : c'.id = a := congrArg Prod.fst heq
  simp only [Bool.and_eq_true, bne_iff_ne, ne_eq] at hc'cond
  exact hc'cond.1.2 hid

/-- Claim C8: a message-type broadcast for a conversation reaches exactly
the registered clients watching that conversation whose sockets are open,
with no exclusion, the sender included when it watches; a typing frame
from a registered sender reaches exactly the other registered watching
open clients and is never echoed back to the sender. -/
theorem realtime_fanout (h : Hub) (cid : String) (payload : Option String)
    (hnodup : (h.clients.map (fun c => c.id)).Nodup) :
    (∀ cl ∈ h.clients,
        ((cl.id, (⟨"message", some cid, none, payload⟩ : Frame))
            ∈ notifyNewMessage h cid payload
          ↔ cl.conversationId = some cid ∧ cl.wsOpen = true))
    ∧ (∀ (a u : String) (d : Option String),
        (∃ ca, h.clients.find? (fun c => c.id == a) = some ca) →
        u ≠ "" → cid ≠ "" →
        (∀ cl ∈ h.clients, cl.id ≠ a →
            ((cl.id, (⟨"typing", none, some u, d⟩ : Frame))
                ∈ (handleMessage h a ⟨"typing", some cid, some u, d⟩).2
              ↔ cl.conversationId = some cid ∧ cl.wsOpen = true))
        ∧ ∀ fr, (a, fr) ∉ (handleMessage h a ⟨"typing", some cid, some u, d⟩).2) := by
  constructor
  · intro cl hcl
    rw [notifyNewMessage, mem_broadcast_iff h cid _ none hnodup cl hcl]
    simp
  · intro a u d hreg hu hcid
    obtain ⟨ca, hfind⟩ := hreg
    have hstep : handleMessage h a ⟨"typing", some cid, some u, d⟩
        = (⟨h.clients.map (fun c =>
              if c.id = a then { c with userId := u, conversationId := some cid }
              else c)⟩,
           broadcastToConversation
             ⟨h.clients.map (fun c =>
                if c.id = a then { c with userId := u, conversationId := some cid }
                else c)⟩
             cid ⟨"typing", none, some u, d⟩ (some a)) := by
      unfold handleMessage
      rw [hfind]
      simp [hu, hcid]
    rw [hstep]
    have hids : ((h.clients.map (fun c =>
          if c.id = a then { c with userId := u, conversationId := some cid }
          else c)).map (fun c => c.id)) = h.clients.map (fun c => c.id) := by
      rw [List.map_map]
      apply List.map_congr_left
      intro c _
      by_cases hca : c.id = a
      · simp [hca]
      · simp [hca]
    constructor
    · intro cl hcl hne
      have hcl' : cl ∈ (h.clients.map (fun c =>
          if c.id = a then { c with userId := u, conversationId := some cid }
          else c)) := by
        have hm := List.mem_map_of_mem (fun c =>
            if c.id = a then { c with userId := u, conversationId := some cid }
            else c) hcl
        simpa [hne] using hm
      rw [mem_broadcast_iff _ cid _ (some a) (by rw [hids]; exact hnodup) cl hcl']
      simp only [Bool.and_eq_true, beq_iff_eq, bne_iff_ne, ne_eq]
      constructor
      · intro hcond
        exact ⟨hcond.1.1, hcond.2⟩
      · intro hcond
        exact ⟨⟨hcond.1, hne⟩, hcond.2⟩
    · intro fr
      exact broadcast_excludes _ cid a _ fr

/-- Witness for claim C8: in the two-client demonstration registry the
message broadcast reaches client B. -/
theorem realtime_fanout_witness :
    clientB ∈ hubDemo.clients ∧
    ((clientB.id, (⟨"message", some "C", none, none⟩ : Frame))
        ∈ notifyNewMessage hubDemo "C" none
      ↔ clientB.conversationId = some "C" ∧ clientB.wsOpen = true) :=
  ⟨by decide,
   (realtime_fanout hubDemo "C" none (by decide)).1 clientB (by decide)⟩

/-- Counterexample to claim C9 as stated: a frame that is valid JSON but
not of the expected typing shape (here type bogus) is handled with no
output at all: no error-type frame is sent back to the registered open
sender, contradicting the claim that every shape failure triggers one.
The registry and connection are nevertheless untouched. -/
theorem malformed_shape_silently_ignored :
    (handleRawFrame hubDemo "A" (RawFrame.valid ⟨"bogus", none, none, none⟩)).sends = []
    ∧ (handleRawFrame hubDemo "A" (RawFrame.valid ⟨"bogus", none, none, none⟩)).hub
        = hubDemo
    ∧ (handleRawFrame hubDemo "A" (RawFrame.valid ⟨"bogus", none, none, none⟩)).closed
        = false := by
  decide

/-- Claim C9 as amended: a frame that fails JSON parsing triggers the
error-type frame back to the sender (delivered through sendToClient, which
silently drops it if the socket is not open) and leaves the registry
unchanged; a frame that parses but is not a well-formed typing frame is
silently dropped with no error frame, no registry update and no broadcast;
in no case is the connection closed. -/
theorem malformed_frame_handling (h : Hub) (clientId : String) (raw : RawFrame) :
    (raw = RawFrame.invalid →
        handleRawFrame h clientId raw
          = ⟨h, sendToClient h clientId errorFrame, false⟩)
    ∧ (∀ f, raw = RawFrame.valid f → wellFormedTyping f = false →
        handleRawFrame h clientId raw = ⟨h, [], false⟩)
    ∧ (handleRawFrame h clientId raw).closed = false := by
  refine ⟨?_, ?_, ?_⟩
  · intro hr
    subst hr
    rfl
  · intro f hr hwf
    subst hr
    unfold wellFormedTyping at hwf
    have hmsg : handleMessage h clientId f = (h, []) := by
      unfold handleMessage
      cases hfind : h.clients.find? (fun c => c.id == clientId) with
      | none => rfl
      | some ca =>
        by_cases hty : f.ftype = "typing"
        · cases hu : f.userId with
          | none => cases hcv : f.conversationId <;> simp [hty, hu]
          | some u =>
            cases hcv : f.conversationId with
            | none => simp [hty, hu, hcv]
            | some cv =>
              have hcond : ¬ (u ≠ "" ∧ cv ≠ "") := by
                intro hc
                rw [hty, hu, hcv] at hwf
                have hb1 : (u != "") = true := bne_iff_ne.mpr hc.1
                have hb2 : (cv != "") = true := bne_iff_ne.mpr hc.2
                simp [hb1, hb2] at hwf
              simp [hty, hu, hcv, hcond]
        · simp [hty]
    unfold handleRawFrame
    show (⟨(handleMessage h clientId f).1, (handleMessage h clientId f).2, false⟩
        : WsEffects) = ⟨h, [], false⟩
    rw [hmsg]
  · cases raw with
    | invalid => rfl
    | valid f => rfl

/-- Witness for the amended claim C9: an unparseable payload from a
registered open client answers with the error frame and closes nothing. -/
theorem malformed_frame_handling_witness :
    handleRawFrame hubDemo "A" RawFrame.invalid
      = ⟨hubDemo, sendToClient hubDemo "A" errorFrame, false⟩ :=
  (malformed_frame_handling hubDemo "A" RawFrame.invalid).1 rfl

/-! ## Concurrency claim -/

/-- Claim C4 fails on the code: the handler takes no per-conversation
lock, so the awaits let two submissions to the same conversation
interleave.  Under the schedule raceSchedule, which respects each
submission's program order and switches only at genuine await points, the
second submission reads its history before the first submission's
assistant insert: both runs complete successfully, the second run's
history is exactly the first user message with no assistant entry at all,
even though the first run's assistant message is in the final store.  The
claim requires the second run's history to include the first run's
assistant message. -/
theorem same_conversation_race :
    (execSched raceA raceB raceProvider TitleOutcome.failure raceSchedule
        storeDemo initLocal initLocal).2.2.history
      = [⟨Role.user, "first"⟩]
    ∧ (∀ m ∈ (execSched raceA raceB raceProvider TitleOutcome.failure raceSchedule
        storeDemo initLocal initLocal).2.2.history, m.role = Role.user)
    ∧ (execSched raceA raceB raceProvider TitleOutcome.failure raceSchedule
        storeDemo initLocal initLocal).2.1.result
      = some (Except.ok ⟨⟨0, "c1", Role.user, "first", none, none⟩,
          ⟨2, "c1", Role.assistant, "reply", some "gpt-4o", none⟩⟩)
    ∧ (execSched raceA raceB raceProvider TitleOutcome.failure raceSchedule
        storeDemo initLocal initLocal).2.2.result
      = some (Except.ok ⟨⟨1, "c1", Role.user, "second", none, none⟩,
          ⟨3, "c1", Role.assistant, "reply", some "gpt-4o", none⟩⟩)
    ∧ (⟨2, "c1", Role.assistant, "reply", some "gpt-4o", none⟩ : StoredMessage)
        ∈ (execSched raceA raceB raceProvider TitleOutcome.failure raceSchedule
            storeDemo initLocal initLocal).1.messages := by
  decide

end StudyBuddy
